import Mathlib

/-!
Shallow embedding of the Electric Brain image plugin's core
(`EBNeuralNetworkImageComponent`): the tensor-layout resolver
(`getTensorSchema`) and the layer-stack graph builder (`generateInputStack`),
together with the spec's running-shape policy, and theorems checking the
specification's claims against the embedded code.
-/

/-- JavaScript values as they appear in torch-module parameter lists:
numbers (modelled as rationals), booleans, and strings. -/
inductive JSVal where
  | num (value : Rat) : JSVal
  | bool (value : Bool) : JSVal
  | str (value : String) : JSVal
deriving DecidableEq

/-- A torch module as constructed by `new EBTorchModule(name, parameters, members)`
in the source: a module name, its constructor parameters, and the member modules
(non-empty only for `nn.Sequential`). -/
inductive EBTorchModule where
  | mk (name : String) (params : List JSVal) (members : List EBTorchModule) : EBTorchModule

/-- The constructor-parameter list of a torch module. -/
def EBTorchModule.params : EBTorchModule → List JSVal
  | .mk _ ps _ => ps

/-- A torch graph node as constructed by `new EBTorchNode(module, inputNode, name)`.
The upstream handle supplied by the caller is opaque to this component and is
modelled by the `input` constructor carrying only a tag. -/
inductive EBTorchNode where
  | input (tag : String) : EBTorchNode
  | node (module : EBTorchModule) (parent : EBTorchNode) (name : String) : EBTorchNode

/-- The name of a graph node (for the opaque input, its tag). -/
def EBTorchNode.nodeName : EBTorchNode → String
  | .input t => t
  | .node _ _ n => n

/-- The upstream node a graph node was constructed from (the opaque input is its
own parent, as it has none inside this component). -/
def EBTorchNode.parentNode : EBTorchNode → EBTorchNode
  | .input t => .input t
  | .node _ p _ => p

/-- The parameter list of the module wrapped by a graph node. -/
def EBTorchNode.nodeParams : EBTorchNode → List JSVal
  | .input _ => []
  | .node m _ _ => m.params

/-- A layer descriptor from `schema.configuration.interpretation.layers`: a JS
object carrying a `layerType` tag plus the numeric fields that the branch for
that tag reads. Fields not supplied by a given descriptor default as below. -/
structure LayerEntry where
  layerType : String
  nInputPlane : Rat := 0
  nOutputPlane : Rat := 0
  kernelWidth : Rat := 0
  kernelHeight : Rat := 0
  stepWidth : Rat := 0
  stepHeight : Rat := 0
  paddingWidth : Rat := 0
  paddingHeight : Rat := 0
  nInputFeatures : Rat := 0
  nState : Bool := true
  nRatio : Rat := 0
  nKernelWidth : Rat := 0
  nKernelHeight : Rat := 0
  nStepWidth : Rat := 0
  nStepHeight : Rat := 0
deriving DecidableEq

/-- The slice of an `EBSchema` that the image component reads: `variableName`,
the leaf-field marker `isField`, `metadata.mainInterpretation`, and
`configuration.interpretation.layers` (the two nested paths are flattened). -/
structure EBSchema where
  variableName : String
  isField : Bool
  mainInterpretation : String
  layers : List LayerEntry
deriving DecidableEq

/-- One labelled dimension of a tensor schema. -/
structure TensorDimension where
  size : Rat
  label : String
deriving DecidableEq

/-- One entry of a tensor schema's `tensorMap`. -/
structure TensorMapEntry where
  start : Nat
  size : Rat
deriving DecidableEq

/-- The tensor schema record built by the component (`new EBTensorSchema({...})`);
`tensorMap` is modelled as an association list. -/
structure EBTensorSchema where
  type : String
  variableName : String
  tensorDimensions : List TensorDimension
  tensorMap : List (String × TensorMapEntry)
deriving DecidableEq

/-- `getImageSizeForSchema`: the source hardcodes 100 x 100 (its TODO says the
size should be derived from the data). -/
def getImageSizeForSchema (_schema : EBSchema) : Nat × Nat := (100, 100)

/-- `getImageChannelsForSchema`: the source hardcodes 3 channels. -/
def getImageChannelsForSchema (_schema : EBSchema) : Nat := 3

/-- `getTensorSchema` from `EBNeuralNetworkImageComponent`: builds the rank-3
tensor schema (width, height, channels) for an image field, with a single
`tensorMap` entry keyed by the field's `variableName`, `start` 1, and size
`width * height * channels`. -/
def getTensorSchema (schema : EBSchema) : EBTensorSchema :=
  let size := getImageSizeForSchema schema
  let channels := getImageChannelsForSchema schema
  EBTensorSchema.mk ("tensor") schema.variableName
    [TensorDimension.mk (size.1 : Rat) ("width"),
     TensorDimension.mk (size.2 : Rat) ("height"),
     TensorDimension.mk (channels : Rat) ("channels")]
    [(schema.variableName,
      TensorMapEntry.mk 1 ((size.1 : Rat) * (size.2 : Rat) * (channels : Rat)))]

/-- `generateTensorInputCode`: asserts that the schema is a leaf field whose
main interpretation is "image" (a failed `assert` throws), then returns the
fixed Lua decoding template. -/
def generateTensorInputCode (schema : EBSchema) (nm : String) : Except String String :=
  if !schema.isField then
    Except.error ("AssertionError: schema.isField")
  else if schema.mainInterpretation != "image" then
    Except.error ("AssertionError: schema.metadata.mainInterpretation === image")
  else
    Except.ok ("local " ++ nm ++ " = function (input)\n" ++
      "    local decoded = mime.unb64(input)\n" ++
      "    local bytes = torch.ByteStorage()\n" ++
      "    bytes:string(decoded)\n" ++
      "    local tensor = torch.ByteTensor(bytes)\n" ++
      "    return image.decompress(tensor, 3)\n" ++
      "end\n")

/-- The mutable state threaded through `generateInputStack`'s forEach loop:
running width and height, the last convolution's `nOutputPlane` (JS `null`,
modelled as `none`, before any convolution is seen), and the torch modules
pushed so far. -/
structure StackState where
  width : Nat
  height : Nat
  lastConvLayerKernelSize : Option Rat
  torchModules : List EBTorchModule

/-- The body of the forEach loop in `generateInputStack`: an if/else-if chain on
`entry.layerType` with no final else, so an unrecognized tag leaves the state
unchanged. Only the maxpooling branch touches width and height (floor-halving
them); only the convolution branch touches `lastConvLayerKernelSize`. -/
def processLayerEntry (st : StackState) (entry : LayerEntry) : StackState :=
  if entry.layerType = "convolution" then
    { st with
      torchModules := st.torchModules ++
        [EBTorchModule.mk ("nn.SpatialConvolution")
          [JSVal.num entry.nInputPlane, JSVal.num entry.nOutputPlane,
           JSVal.num entry.kernelWidth, JSVal.num entry.kernelHeight,
           JSVal.num entry.stepWidth, JSVal.num entry.stepHeight,
           JSVal.num entry.paddingWidth, JSVal.num entry.paddingHeight] []],
      lastConvLayerKernelSize := some entry.nOutputPlane }
  else if entry.layerType = "batchnormalization" then
    { st with
      torchModules := st.torchModules ++
        [EBTorchModule.mk ("nn.SpatialBatchNormalization")
          [JSVal.num entry.nInputFeatures] []] }
  else if entry.layerType = "relu" then
    { st with
      torchModules := st.torchModules ++
        [EBTorchModule.mk ("nn.ReLU") [JSVal.bool entry.nState] []] }
  else if entry.layerType = "dropout" then
    { st with
      torchModules := st.torchModules ++
        [EBTorchModule.mk ("nn.Dropout") [JSVal.num entry.nRatio] []] }
  else if entry.layerType = "maxpooling" then
    { st with
      torchModules := st.torchModules ++
        [EBTorchModule.mk ("nn.SpatialMaxPooling")
          [JSVal.num entry.nKernelWidth, JSVal.num entry.nKernelHeight,
           JSVal.num entry.nStepWidth, JSVal.num entry.nStepHeight] []],
      width := st.width / 2,
      height := st.height / 2 }
  else
    st

/-- The source computes `outputSize = lastConvLayerKernelSize * width * height`.
When the stack contained no convolution, `lastConvLayerKernelSize` is still the
JS `null`, which JavaScript coerces to 0 in multiplication, so the product is 0;
`Option.getD _ 0` models exactly that coercion. -/
def stackOutputSize (st : StackState) : Rat :=
  (st.lastConvLayerKernelSize.getD 0) * (st.width : Rat) * (st.height : Rat)

/-- The record returned by `generateInputStack`. -/
structure InputStackResult where
  outputNode : EBTorchNode
  outputTensorSchema : EBTensorSchema
  additionalModules : List EBTorchModule

/-- Modelled from the spec: `EBTensorSchema.generateDataTensorSchema` lives in
the shared models directory, which is not among this repository's sources.
Spec section 4.2 describes its result as a descriptor built the same way as the
rank-3 one but with a single dimension and size equal to the flattened
length. -/
def generateDataTensorSchema (size : Rat) (nm : String) : EBTensorSchema :=
  EBTensorSchema.mk ("tensor") nm
    [TensorDimension.mk size ("features")]
    [(nm, TensorMapEntry.mk 1 size)]

/-- `generateInputStack` from `EBNeuralNetworkImageComponent`: folds the loop
body over the configured layers starting from the hardcoded 100 x 100 image
size, wraps the collected modules in an `nn.Sequential` node named
`variableName ++ "_convStack"`, and appends an `nn.Reshape` node named
`variableName ++ "_reshape"` declaring the flattened output size. -/
def generateInputStack (schema : EBSchema) (inputNode : EBTorchNode) : InputStackResult :=
  let nm := schema.variableName
  let size := getImageSizeForSchema schema
  let st := schema.layers.foldl processLayerEntry (StackState.mk size.1 size.2 none [])
  let convStack := EBTorchNode.node
    (EBTorchModule.mk ("nn.Sequential") [] st.torchModules) inputNode (nm ++ "_convStack")
  let outputSize := stackOutputSize st
  let reshape := EBTorchNode.node
    (EBTorchModule.mk ("nn.Reshape") [JSVal.num outputSize] []) convStack (nm ++ "_reshape")
  InputStackResult.mk reshape (generateDataTensorSchema outputSize (nm ++ "_convNetOutput")) []

/-- `generateTensorOutputCode`: the source body is a single unconditional
`throw`. -/
def generateTensorOutputCode : Except String String :=
  Except.error ("Cant create output code for the image neural network component")

/-- `generateOutputStack`: the source body is a single unconditional `throw`. -/
def generateOutputStack (_input : EBTorchNode) : Except String InputStackResult :=
  Except.error ("Cant create output stack for the image neural network component")

/-- The five layer tags the loop in `generateInputStack` recognizes. -/
def knownLayerTypes : List String :=
  ["convolution", "batchnormalization", "relu", "dropout", "maxpooling"]

/-- Spec-side running shape triple (spec section 4.2), written from the spec's
words for refinement comparison against `processLayerEntry`: a Convolution
updates the channel count to its `nOutputPlane`, a MaxPooling floor-halves the
width and the height, and every other descriptor leaves the triple unchanged. -/
def specShapeStep (t : Nat × Nat × Rat) (e : LayerEntry) : Nat × Nat × Rat :=
  if e.layerType = "convolution" then (t.1, t.2.1, e.nOutputPlane)
  else if e.layerType = "maxpooling" then (t.1 / 2, t.2.1 / 2, t.2.2)
  else t

/-- Spec-side running shape of a whole stack, initialized from the field's
resolved dimensions (100, 100, 3). -/
def specShape (layers : List LayerEntry) : Nat × Nat × Rat :=
  layers.foldl specShapeStep (100, 100, 3)

/-- A SpatialConvolution descriptor 3 -> 32 with kernel 3x3, stride 1, padding 1
(the default from the configuration UI). -/
def convEntryA : LayerEntry :=
  { layerType := "convolution", nInputPlane := 3, nOutputPlane := 32,
    kernelWidth := 3, kernelHeight := 3, stepWidth := 1, stepHeight := 1,
    paddingWidth := 1, paddingHeight := 1 }

/-- A SpatialConvolution descriptor 32 -> 64, otherwise like `convEntryA`. -/
def convEntryB : LayerEntry :=
  { convEntryA with nInputPlane := 32, nOutputPlane := 64 }

/-- A SpatialMaxPooling descriptor with kernel 2x2 and stride 2. -/
def maxPoolEntry : LayerEntry :=
  { layerType := "maxpooling", nKernelWidth := 2, nKernelHeight := 2,
    nStepWidth := 2, nStepHeight := 2 }

/-- A ReLU descriptor. -/
def reluEntry : LayerEntry := { layerType := "relu", nState := true }

/-- A descriptor with an unrecognized tag. -/
def unknownEntry : LayerEntry := { layerType := "normalization_v2" }

/-- A Dropout descriptor with the out-of-range ratio 1.5. -/
def badDropoutEntry : LayerEntry := { layerType := "dropout", nRatio := 3 / 2 }

/-- The loop state at the start of a build (width 100, height 100, no
convolution seen, no modules). -/
def initStackState : StackState := StackState.mk 100 100 none []

/-- An image-field schema with a stack consisting of a single maxpooling. -/
def schemaOnlyPool : EBSchema := EBSchema.mk ("img") true ("image") [maxPoolEntry]

/-- An image-field schema whose stack holds a single unrecognized descriptor. -/
def schemaUnknown : EBSchema := EBSchema.mk ("img") true ("image") [unknownEntry]

/-- An image-field schema whose stack holds a single malformed dropout. -/
def schemaBadDropout : EBSchema := EBSchema.mk ("img") true ("image") [badDropoutEntry]

/-- A schema violating the leaf-image precondition: not a leaf field. -/
def schemaNotLeaf : EBSchema := EBSchema.mk ("v") false ("image") []

/-- The four-layer example stack of spec section 8. -/
def exampleStack : List LayerEntry := [convEntryA, maxPoolEntry, convEntryB, maxPoolEntry]

/-- An image-field schema carrying the example stack. -/
def schemaExample : EBSchema := EBSchema.mk ("img") true ("image") exampleStack

/-- Helper lemma: the running width after one loop step, as a single
conditional. -/
theorem processLayerEntry_width (st : StackState) (e : LayerEntry) :
    (processLayerEntry st e).width
      = if e.layerType = "maxpooling" then st.width / 2 else st.width := by
  by_cases h5 : e.layerType = "maxpooling"
  · have h1 : ¬ e.layerType = "convolution" := by rw [h5]; decide
    have h2 : ¬ e.layerType = "batchnormalization" := by rw [h5]; decide
    have h3 : ¬ e.layerType = "relu" := by rw [h5]; decide
    have h4 : ¬ e.layerType = "dropout" := by rw [h5]; decide
    simp only [processLayerEntry, if_neg h1, if_neg h2, if_neg h3, if_neg h4,
      if_pos h5]
  · simp only [if_neg h5, processLayerEntry]
    by_cases h1 : e.layerType = "convolution"
    · simp only [if_pos h1]
    by_cases h2 : e.layerType = "batchnormalization"
    · simp only [if_neg h1, if_pos h2]
    by_cases h3 : e.layerType = "relu"
    · simp only [if_neg h1, if_neg h2, if_pos h3]
    by_cases h4 : e.layerType = "dropout"
    · simp only [if_neg h1, if_neg h2, if_neg h3, if_pos h4]
    · simp only [if_neg h1, if_neg h2, if_neg h3, if_neg h4, if_neg h5]

/-- Helper lemma: the running height after one loop step, as a single
conditional. -/
theorem processLayerEntry_height (st : StackState) (e : LayerEntry) :
    (processLayerEntry st e).height
      = if e.layerType = "maxpooling" then st.height / 2 else st.height := by
  by_cases h5 : e.layerType = "maxpooling"
  · have h1 : ¬ e.layerType = "convolution" := by rw [h5]; decide
    have h2 : ¬ e.layerType = "batchnormalization" := by rw [h5]; decide
    have h3 : ¬ e.layerType = "relu" := by rw [h5]; decide
    have h4 : ¬ e.layerType = "dropout" := by rw [h5]; decide
    simp only [processLayerEntry, if_neg h1, if_neg h2, if_neg h3, if_neg h4,
      if_pos h5]
  · simp only [if_neg h5, processLayerEntry]
    by_cases h1 : e.layerType = "convolution"
    · simp only [if_pos h1]
    by_cases h2 : e.layerType = "batchnormalization"
    · simp only [if_neg h1, if_pos h2]
    by_cases h3 : e.layerType = "relu"
    · simp only [if_neg h1, if_neg h2, if_pos h3]
    by_cases h4 : e.layerType = "dropout"
    · simp only [if_neg h1, if_neg h2, if_neg h3, if_pos h4]
    · simp only [if_neg h1, if_neg h2, if_neg h3, if_neg h4, if_neg h5]

/-- Helper lemma: the last-convolution channel count after one loop step, as a
single conditional. -/
theorem processLayerEntry_lastConv (st : StackState) (e : LayerEntry) :
    (processLayerEntry st e).lastConvLayerKernelSize
      = if e.layerType = "convolution" then some e.nOutputPlane
        else st.lastConvLayerKernelSize := by
  by_cases h1 : e.layerType = "convolution"
  · simp only [processLayerEntry, if_pos h1]
  simp only [if_neg h1, processLayerEntry]
  by_cases h2 : e.layerType = "batchnormalization"
  · simp only [if_neg h1, if_pos h2]
  by_cases h3 : e.layerType = "relu"
  · simp only [if_neg h1, if_neg h2, if_pos h3]
  by_cases h4 : e.layerType = "dropout"
  · simp only [if_neg h1, if_neg h2, if_neg h3, if_pos h4]
  by_cases h5 : e.layerType = "maxpooling"
  · simp only [if_neg h1, if_neg h2, if_neg h3, if_neg h4, if_pos h5]
  · simp only [if_neg h1, if_neg h2, if_neg h3, if_neg h4, if_neg h5]

/-- Helper lemma: the width component of the spec-side step. -/
theorem specShapeStep_width (t : Nat × Nat × Rat) (e : LayerEntry) :
    (specShapeStep t e).1 = if e.layerType = "maxpooling" then t.1 / 2 else t.1 := by
  by_cases h5 : e.layerType = "maxpooling"
  · have h1 : ¬ e.layerType = "convolution" := by rw [h5]; decide
    simp only [specShapeStep, if_neg h1, if_pos h5]
  · simp only [if_neg h5, specShapeStep]
    by_cases h1 : e.layerType = "convolution"
    · simp only [if_pos h1]
    · simp only [if_neg h1, if_neg h5]

/-- Helper lemma: the height component of the spec-side step. -/
theorem specShapeStep_height (t : Nat × Nat × Rat) (e : LayerEntry) :
    (specShapeStep t e).2.1 = if e.layerType = "maxpooling" then t.2.1 / 2 else t.2.1 := by
  by_cases h5 : e.layerType = "maxpooling"
  · have h1 : ¬ e.layerType = "convolution" := by rw [h5]; decide
    simp only [specShapeStep, if_neg h1, if_pos h5]
  · simp only [if_neg h5, specShapeStep]
    by_cases h1 : e.layerType = "convolution"
    · simp only [if_pos h1]
    · simp only [if_neg h1, if_neg h5]

/-- Helper lemma: the channel component of the spec-side step. -/
theorem specShapeStep_channels (t : Nat × Nat × Rat) (e : LayerEntry) :
    (specShapeStep t e).2.2 = if e.layerType = "convolution" then e.nOutputPlane else t.2.2 := by
  by_cases h1 : e.layerType = "convolution"
  · simp only [specShapeStep, if_pos h1]
  · simp only [if_neg h1, specShapeStep]
    by_cases h5 : e.layerType = "maxpooling"
    · simp only [if_neg h1, if_pos h5]
    · simp only [if_neg h1, if_neg h5]

/-- Helper lemma: a descriptor whose tag is not among the five known kinds
leaves the loop state completely unchanged (the if/else-if chain has no final
else branch). -/
theorem processLayerEntry_unknown (st : StackState) (e : LayerEntry)
    (h : e.layerType ∉ knownLayerTypes) : processLayerEntry st e = st := by
  simp only [knownLayerTypes, List.mem_cons, List.not_mem_nil, or_false, not_or] at h
  obtain ⟨h1, h2, h3, h4, h5⟩ := h
  simp only [processLayerEntry, if_neg h1, if_neg h2, if_neg h3, if_neg h4, if_neg h5]

/-- Helper lemma: the running width and height of the code's fold agree with
the spec-side triple's width and height, for any initial channel value. -/
theorem foldl_dims (layers : List LayerEntry) (st : StackState) (w h : Nat) (c : Rat)
    (hw : st.width = w) (hh : st.height = h) :
    (layers.foldl processLayerEntry st).width
        = (layers.foldl specShapeStep (w, h, c)).1 ∧
      (layers.foldl processLayerEntry st).height
        = (layers.foldl specShapeStep (w, h, c)).2.1 := by
  induction layers generalizing st w h c with
  | nil => exact ⟨hw, hh⟩
  | cons e rest ih =>
    simp only [List.foldl_cons]
    have heta : specShapeStep (w, h, c) e
        = ((specShapeStep (w, h, c) e).1,
           (specShapeStep (w, h, c) e).2.1,
           (specShapeStep (w, h, c) e).2.2) := rfl
    rw [heta]
    refine ih (processLayerEntry st e) _ _ _ ?_ ?_
    · rw [processLayerEntry_width, specShapeStep_width, hw]
    · rw [processLayerEntry_height, specShapeStep_height, hh]

/-- Helper lemma: once the code's `lastConvLayerKernelSize` agrees with the
spec-side channel count, the agreement is preserved by the rest of the fold. -/
theorem foldl_lastConv_some (layers : List LayerEntry) (st : StackState)
    (w h : Nat) (c : Rat) (hc : st.lastConvLayerKernelSize = some c) :
    (layers.foldl processLayerEntry st).lastConvLayerKernelSize
      = some ((layers.foldl specShapeStep (w, h, c)).2.2) := by
  induction layers generalizing st w h c with
  | nil => exact hc
  | cons e rest ih =>
    simp only [List.foldl_cons]
    have heta : specShapeStep (w, h, c) e
        = ((specShapeStep (w, h, c) e).1,
           (specShapeStep (w, h, c) e).2.1,
           (specShapeStep (w, h, c) e).2.2) := rfl
    rw [heta]
    refine ih (processLayerEntry st e) _ _ _ ?_
    rw [processLayerEntry_lastConv, specShapeStep_channels]
    by_cases h1 : e.layerType = "convolution"
    · rw [if_pos h1, if_pos h1]
    · rw [if_neg h1, if_neg h1, hc]

/-- Helper lemma: when the stack contains at least one convolution, the code's
`lastConvLayerKernelSize` after the fold is exactly the spec-side channel
count, for any initial channel value. -/
theorem foldl_lastConv_exists (layers : List LayerEntry) (st : StackState)
    (w h : Nat) (c : Rat)
    (hconv : ∃ e ∈ layers, e.layerType = "convolution") :
    (layers.foldl processLayerEntry st).lastConvLayerKernelSize
      = some ((layers.foldl specShapeStep (w, h, c)).2.2) := by
  induction layers generalizing st w h c with
  | nil => exact absurd hconv (by simp)
  | cons e rest ih =>
    simp only [List.foldl_cons]
    have heta : specShapeStep (w, h, c) e
        = ((specShapeStep (w, h, c) e).1,
           (specShapeStep (w, h, c) e).2.1,
           (specShapeStep (w, h, c) e).2.2) := rfl
    rw [heta]
    by_cases h1 : e.layerType = "convolution"
    · refine foldl_lastConv_some rest (processLayerEntry st e) _ _ _ ?_
      rw [processLayerEntry_lastConv, if_pos h1, specShapeStep_channels, if_pos h1]
    · obtain ⟨x, hx, hxc⟩ := hconv
      rcases List.mem_cons.mp hx with heq | hmem
      · exact absurd hxc (heq ▸ h1)
      · exact ih (processLayerEntry st e) _ _ _ ⟨x, hmem, hxc⟩

/-- C1 (amended): for every layer stack containing at least one Convolution,
`generateInputStack` threads the running (width, height, channels) triple of
the spec — initialized from the resolved dimensions (100, 100, 3) — through the
descriptors left to right, and the declared flattened output length of the
terminal Reshape node equals the running channels * width * height. -/
theorem generateInputStack_reshape_size (schema : EBSchema) (inp : EBTorchNode)
    (hconv : ∃ e ∈ schema.layers, e.layerType = "convolution") :
    (generateInputStack schema inp).outputNode.nodeParams
      = [JSVal.num ((specShape schema.layers).2.2
          * ((specShape schema.layers).1 : Rat)
          * ((specShape schema.layers).2.1 : Rat))] := by
  have hdims := foldl_dims schema.layers (StackState.mk 100 100 none []) 100 100 3 rfl rfl
  have hlast := foldl_lastConv_exists schema.layers (StackState.mk 100 100 none []) 100 100 3 hconv
  simp only [generateInputStack, getImageSizeForSchema, EBTorchNode.nodeParams,
    EBTorchModule.params, specShape, stackOutputSize, hdims.1, hdims.2, hlast,
    Option.getD_some]

/-- C1 witness: the amended theorem applied to the example stack, whose first
descriptor is a convolution. -/
theorem generateInputStack_reshape_size_witness :
    (∃ e ∈ schemaExample.layers, e.layerType = "convolution") ∧
    (generateInputStack schemaExample (EBTorchNode.input ("in"))).outputNode.nodeParams
      = [JSVal.num ((specShape schemaExample.layers).2.2
          * ((specShape schemaExample.layers).1 : Rat)
          * ((specShape schemaExample.layers).2.1 : Rat))] :=
  ⟨by decide, generateInputStack_reshape_size schemaExample (EBTorchNode.input ("in")) (by decide)⟩

/-- C1 counterexample: on the stack consisting of a single MaxPooling (no
convolution), the code declares a Reshape size of 0 — JavaScript's
`null * width * height` — while the claim's running triple
(100, 100, 3) -> (50, 50, 3) predicts 3 * 50 * 50 = 7500. -/
theorem generateInputStack_reshape_size_no_conv :
    (generateInputStack schemaOnlyPool (EBTorchNode.input ("in"))).outputNode.nodeParams
        = [JSVal.num 0] ∧
      (specShape schemaOnlyPool.layers).2.2
          * ((specShape schemaOnlyPool.layers).1 : Rat)
          * ((specShape schemaOnlyPool.layers).2.1 : Rat) = 7500 ∧
      ¬ ((generateInputStack schemaOnlyPool (EBTorchNode.input ("in"))).outputNode.nodeParams
        = [JSVal.num ((specShape schemaOnlyPool.layers).2.2
            * ((specShape schemaOnlyPool.layers).1 : Rat)
            * ((specShape schemaOnlyPool.layers).2.1 : Rat))]) := by
  refine ⟨?_, ?_, ?_⟩
  all_goals
    simp [generateInputStack, schemaOnlyPool, maxPoolEntry, processLayerEntry,
      stackOutputSize, specShape, specShapeStep, getImageSizeForSchema,
      EBTorchNode.nodeParams, EBTorchModule.params]
  all_goals norm_num

/-- C2: a MaxPooling descriptor floor-halves the running width and height
unconditionally, regardless of its kernel and stride fields, while
Convolution, BatchNormalization, ReLU and Dropout descriptors leave the
running width and height unchanged. -/
theorem maxPooling_halves_dimensions (st : StackState) (e : LayerEntry) :
    (e.layerType = "maxpooling" →
      (processLayerEntry st e).width = st.width / 2 ∧
      (processLayerEntry st e).height = st.height / 2) ∧
    (e.layerType = "convolution" ∨ e.layerType = "batchnormalization" ∨
        e.layerType = "relu" ∨ e.layerType = "dropout" →
      (processLayerEntry st e).width = st.width ∧
      (processLayerEntry st e).height = st.height) := by
  constructor
  · intro h
    rw [processLayerEntry_width, if_pos h, processLayerEntry_height, if_pos h]
    exact ⟨rfl, rfl⟩
  · intro h
    have hne : ¬ e.layerType = "maxpooling" := by
      rcases h with h | h | h | h <;> rw [h] <;> decide
    rw [processLayerEntry_width, if_neg hne, processLayerEntry_height, if_neg hne]
    exact ⟨rfl, rfl⟩

/-- C2 witness: the theorem applied to a maxpooling descriptor with kernel 2x2
and to a ReLU descriptor, at the initial 100 x 100 state. -/
theorem maxPooling_halves_dimensions_witness :
    ((processLayerEntry initStackState maxPoolEntry).width = initStackState.width / 2 ∧
      (processLayerEntry initStackState maxPoolEntry).height = initStackState.height / 2) ∧
    ((processLayerEntry initStackState reluEntry).width = initStackState.width ∧
      (processLayerEntry initStackState reluEntry).height = initStackState.height) :=
  ⟨(maxPooling_halves_dimensions initStackState maxPoolEntry).1 (by decide),
   (maxPooling_halves_dimensions initStackState reluEntry).2 (Or.inr (Or.inr (Or.inl (by decide))))⟩

/-- C3: for every schema, `getTensorSchema` returns dimensions labelled
"width", "height", "channels" in that order, and a tensorMap with exactly one
entry, keyed by the schema's variableName, with start 1 and size
width * height * channels, which also equals the product of the returned
dimension sizes. -/
theorem getTensorSchema_layout (schema : EBSchema) :
    (getTensorSchema schema).tensorDimensions.map TensorDimension.label
        = ["width", "height", "channels"] ∧
      (getTensorSchema schema).tensorMap
        = [(schema.variableName,
            TensorMapEntry.mk 1
              (((getImageSizeForSchema schema).1 : Rat)
                * ((getImageSizeForSchema schema).2 : Rat)
                * ((getImageChannelsForSchema schema) : Rat)))] ∧
      ((getTensorSchema schema).tensorDimensions.map TensorDimension.size).prod
        = (((getTensorSchema schema).tensorMap.map fun p => p.2.size)).prod := by
  refine ⟨rfl, rfl, ?_⟩
  simp [getTensorSchema, getImageSizeForSchema, getImageChannelsForSchema]
  norm_num

/-- C4 (amended): a descriptor whose tag is not one of the five known kinds is
silently skipped: it emits no node, and the build of the whole stack proceeds
exactly as if the descriptor were absent, returning a complete graph. -/
theorem unknownLayer_skipped (schema : EBSchema) (inp : EBTorchNode)
    (l1 l2 : List LayerEntry) (e : LayerEntry)
    (hl : schema.layers = l1 ++ e :: l2)
    (h : e.layerType ∉ knownLayerTypes) :
    generateInputStack schema inp
      = generateInputStack { schema with layers := l1 ++ l2 } inp := by
  have hfold : ∀ st : StackState,
      (l1 ++ e :: l2).foldl processLayerEntry st
        = (l1 ++ l2).foldl processLayerEntry st := by
    intro st
    rw [List.foldl_append, List.foldl_cons, processLayerEntry_unknown _ _ h,
      List.foldl_append]
  simp only [generateInputStack, hl, hfold]
  rfl

/-- C4 witness: the amended theorem applied to a one-element stack holding the
"normalization_v2" descriptor. -/
theorem unknownLayer_skipped_witness :
    (schemaUnknown.layers = [] ++ unknownEntry :: [] ∧
      unknownEntry.layerType ∉ knownLayerTypes) ∧
    generateInputStack schemaUnknown (EBTorchNode.input ("in"))
      = generateInputStack { schemaUnknown with layers := [] ++ [] } (EBTorchNode.input ("in")) :=
  ⟨⟨rfl, by decide⟩,
   unknownLayer_skipped schemaUnknown (EBTorchNode.input ("in")) [] [] unknownEntry rfl (by decide)⟩

/-- C4 counterexample: a stack holding only the unrecognized descriptor
"normalization_v2" is not rejected; the build returns a complete graph (an
empty Sequential followed by a Reshape of size 0) instead of failing with an
UnsupportedLayerKind fault. -/
theorem unknownLayer_not_rejected :
    (generateInputStack schemaUnknown (EBTorchNode.input ("in"))).outputNode
      = EBTorchNode.node (EBTorchModule.mk ("nn.Reshape") [JSVal.num 0] [])
          (EBTorchNode.node (EBTorchModule.mk ("nn.Sequential") [] [])
            (EBTorchNode.input ("in")) ("img_convStack"))
          ("img_reshape") := by
  simp [generateInputStack, schemaUnknown, unknownEntry, processLayerEntry,
    stackOutputSize, getImageSizeForSchema]

/-- C5 (amended): the build performs no validation of numeric layer
parameters: a Dropout descriptor with any ratio whatsoever (including the
out-of-range 1.5) is accepted, its ratio is passed verbatim into the emitted
nn.Dropout module, and the running shape state is otherwise unchanged. -/
theorem dropout_ratio_not_validated (st : StackState) (r : Rat) :
    processLayerEntry st { layerType := "dropout", nRatio := r }
      = { st with torchModules := st.torchModules
            ++ [EBTorchModule.mk ("nn.Dropout") [JSVal.num r] []] } := by
  simp [processLayerEntry]

/-- C5 counterexample: a stack holding only a Dropout descriptor with ratio
1.5 is not rejected; the build returns a graph whose Sequential contains the
nn.Dropout module with parameter 1.5, instead of failing with an
InvalidLayerConfiguration fault and returning no node. -/
theorem dropout_out_of_range_not_rejected :
    (generateInputStack schemaBadDropout (EBTorchNode.input ("in"))).outputNode
      = EBTorchNode.node (EBTorchModule.mk ("nn.Reshape") [JSVal.num 0] [])
          (EBTorchNode.node
            (EBTorchModule.mk ("nn.Sequential") []
              [EBTorchModule.mk ("nn.Dropout") [JSVal.num (3 / 2)] []])
            (EBTorchNode.input ("in")) ("img_convStack"))
          ("img_reshape") := by
  simp [generateInputStack, schemaBadDropout, badDropoutEntry, processLayerEntry,
    stackOutputSize, getImageSizeForSchema]

/-- C6 (amended): `getTensorSchema` performs no precondition check at all and
succeeds on every schema; the leaf-image precondition is instead asserted by
`generateTensorInputCode`, which succeeds exactly when the schema is a leaf
field whose main interpretation is "image" and throws otherwise. -/
theorem getTensorSchema_no_precondition_check (schema : EBSchema) (nm : String) :
    (getTensorSchema schema).tensorMap
        = [(schema.variableName,
            TensorMapEntry.mk 1
              (((getImageSizeForSchema schema).1 : Rat)
                * ((getImageSizeForSchema schema).2 : Rat)
                * ((getImageChannelsForSchema schema) : Rat)))] ∧
      (generateTensorInputCode schema nm).toOption.isSome
        = (schema.isField && (schema.mainInterpretation == "image")) := by
  refine ⟨rfl, ?_⟩
  by_cases h1 : schema.isField <;> by_cases h2 : schema.mainInterpretation = "image" <;>
    simp [generateTensorInputCode, Except.toOption, h1, h2]

/-- C6 counterexample: on a schema that is not a leaf field (`isField` false),
`getTensorSchema` does not fail fast — it returns the full tensor schema —
while the assertion that actually guards the precondition sits in
`generateTensorInputCode`, which throws on the same schema. -/
theorem getTensorSchema_no_fail_on_bad_schema :
    getTensorSchema schemaNotLeaf
        = EBTensorSchema.mk ("tensor") ("v")
            [TensorDimension.mk 100 ("width"), TensorDimension.mk 100 ("height"),
             TensorDimension.mk 3 ("channels")]
            [(("v"), TensorMapEntry.mk 1 30000)] ∧
      generateTensorInputCode schemaNotLeaf ("f")
        = Except.error ("AssertionError: schema.isField") := by
  constructor
  · simp [getTensorSchema, schemaNotLeaf, getImageSizeForSchema, getImageChannelsForSchema]
    norm_num
  · simp [generateTensorInputCode, schemaNotLeaf]

/-- C7: on the example stack Convolution(3 to 32), MaxPooling,
Convolution(32 to 64), MaxPooling starting from 100 x 100 x 3, the running
width and height go 100, 100, 50, 50, 25, the final channel count is 64, and
the terminal Reshape declares an output size of 64 * 25 * 25 = 40000. -/
theorem example_stack_shape_propagation :
    ((exampleStack.scanl processLayerEntry initStackState).map StackState.width)
        = [100, 100, 50, 50, 25] ∧
      ((exampleStack.scanl processLayerEntry initStackState).map StackState.height)
        = [100, 100, 50, 50, 25] ∧
      (exampleStack.foldl processLayerEntry initStackState).lastConvLayerKernelSize
        = some 64 ∧
      (generateInputStack schemaExample (EBTorchNode.input ("in"))).outputNode.nodeParams
        = [JSVal.num 40000] := by
  refine ⟨by decide, by decide, by decide, ?_⟩
  simp [generateInputStack, schemaExample, exampleStack, convEntryA, convEntryB,
    maxPoolEntry, initStackState, processLayerEntry, stackOutputSize,
    getImageSizeForSchema, EBTorchNode.nodeParams, EBTorchModule.params]
  norm_num

/-- C8: two builds from structurally identical arguments return identical
results, and the names of the two nodes the builder constructs — and of the
output tensor schema — are derived only from the field's variableName plus the
fixed suffixes "_convStack", "_reshape" and "_convNetOutput". -/
theorem generateInputStack_deterministic (s1 s2 : EBSchema) (i1 i2 : EBTorchNode)
    (hs : s1 = s2) (hi : i1 = i2) :
    generateInputStack s1 i1 = generateInputStack s2 i2 ∧
      (generateInputStack s1 i1).outputNode.nodeName = s1.variableName ++ "_reshape" ∧
      ((generateInputStack s1 i1).outputNode.parentNode).nodeName
        = s1.variableName ++ "_convStack" ∧
      (generateInputStack s1 i1).outputTensorSchema.variableName
        = s1.variableName ++ "_convNetOutput" := by
  subst hs
  subst hi
  exact ⟨rfl, rfl, rfl, rfl⟩

/-- C8 witness: the theorem applied twice to the example schema and the same
opaque input node. -/
theorem generateInputStack_deterministic_witness :
    generateInputStack schemaExample (EBTorchNode.input ("in"))
        = generateInputStack schemaExample (EBTorchNode.input ("in")) ∧
      (generateInputStack schemaExample (EBTorchNode.input ("in"))).outputNode.nodeName
        = schemaExample.variableName ++ "_reshape" ∧
      ((generateInputStack schemaExample (EBTorchNode.input ("in"))).outputNode.parentNode).nodeName
        = schemaExample.variableName ++ "_convStack" ∧
      (generateInputStack schemaExample (EBTorchNode.input ("in"))).outputTensorSchema.variableName
        = schemaExample.variableName ++ "_convNetOutput" :=
  generateInputStack_deterministic schemaExample schemaExample
    (EBTorchNode.input ("in")) (EBTorchNode.input ("in")) rfl rfl

/-- C9: a single MaxPooling on a 1 x 1 spatial input floor-divides the running
width and height to 0 (1 / 2 = 0 in the floor division the loop performs, with
no division fault possible), and the zero dimensions propagate into the
declared flattened output size, which is 0. -/
theorem maxpool_on_one_by_one :
    ([maxPoolEntry].foldl processLayerEntry (StackState.mk 1 1 none [])).width = 0 ∧
      ([maxPoolEntry].foldl processLayerEntry (StackState.mk 1 1 none [])).height = 0 ∧
      stackOutputSize ([maxPoolEntry].foldl processLayerEntry (StackState.mk 1 1 none [])) = 0 := by
  refine ⟨by decide, by decide, ?_⟩
  simp [maxPoolEntry, processLayerEntry, stackOutputSize]

/-- C10: the output-direction methods of the image component unconditionally
throw: `generateTensorOutputCode` and `generateOutputStack` always return the
error branch and never a value. -/
theorem output_direction_always_throws :
    generateTensorOutputCode
        = Except.error ("Cant create output code for the image neural network component") ∧
      ∀ input : EBTorchNode,
        generateOutputStack input
          = Except.error ("Cant create output stack for the image neural network component") :=
  ⟨rfl, fun _ => rfl⟩
